import Mathlib

/-!
Verification of the picseed placeholder-image generator.

The development shallowly embeds the three source files
(`src/utils.ts`, `src/index.ts`, `src/types.ts`) into Lean:

* a JavaScript string is modelled as its sequence of UTF-16 code units
  (`List Nat`) where character codes matter (hashing), and as `String`
  where only the text matters (colors, markup);
* 32-bit signed truncation (`x | 0`, `x << 5`) is modelled with `Int`
  and explicit reduction modulo `2 ^ 32` (`int32`);
* the font size `Math.min(w, h) * 0.3` is computed in a faithful model of
  IEEE-754 binary64: doubles are exact dyadic rationals `m * 2 ^ e`,
  multiplication is correctly rounded (round-to-nearest, ties-to-even,
  53 bits), and the interpolated text is ECMAScript's shortest
  round-tripping decimal (`jsDoubleToString`); canvas coordinates, which
  the backend receives as numbers and never as text, stay exact
  rationals;
* the effectful raster path (`renderPng`) is modelled as a function of an
  explicit environment (window present?, outcome of `import('canvas')`,
  2D-context availability, backend serialization result) and of the
  process-wide `NodeCanvas` cache, returning the new cache state, the
  settled result, and the list of drawing commands issued.
-/

/-- Two's-complement truncation to a signed 32-bit integer: the model of
JavaScript `x | 0` (and of the result of `<<`). -/
def int32 (x : Int) : Int :=
  let m := x % 4294967296
  if m < 2147483648 then m else m - 4294967296

/-- One loop iteration of `hashString` (src/utils.ts lines 13-14):
`hash = (hash << 5) - hash + char; hash |= 0`, where `hash << 5` itself
truncates `hash * 32` to 32 bits. -/
def hashStep (hash : Int) (char : Nat) : Int :=
  int32 (int32 (hash * 32) - hash + char)

/-- Model of `hashString` (src/utils.ts lines 9-17).  The accumulator starts
at 0 and is folded through `hashStep` over the characters in order; the
result is `Math.abs(hash)` (exact on doubles, since `|hash| ≤ 2 ^ 31`).
The input is the list of UTF-16 code unit values of the seed
(`charCodeAt`). -/
def hashString (str : List Nat) : Int :=
  ((str.foldl hashStep 0).natAbs : Nat)

/-- One accumulator update exactly as the specification words it (§4.1):
`accumulator = accumulator * 31 + c`, truncated to 32-bit signed
two's-complement semantics. -/
def hashStepSpec (acc : Int) (c : Nat) : Int :=
  int32 (acc * 31 + c)

/-- The hash algorithm exactly as the specification words it (§4.1): iterate
the characters in order over a 32-bit signed accumulator starting at 0,
update with `hashStepSpec`, and finally take the absolute value. -/
def hashStringSpec (str : List Nat) : Int :=
  ((str.foldl hashStepSpec 0).natAbs : Nat)

/-- Model of `deterministicColor` (src/utils.ts lines 24-29).  JavaScript `%`
agrees with `Int.emod` here because `hashString` is non-negative. -/
def deterministicColor (seed : List Nat) : String :=
  let hash := hashString seed
  let hue := hash % 360
  let saturation : Nat := 70
  let lightness : Nat := 50
  "hsl(" ++ toString hue ++ ", " ++ toString saturation ++ "%, " ++ toString lightness ++ "%)"

lemma int32_emod (x : Int) : int32 x % 4294967296 = x % 4294967296 := by
  unfold int32
  dsimp only
  split <;> omega

lemma int32_congr {x y : Int} (h : x % 4294967296 = y % 4294967296) :
    int32 x = int32 y := by
  unfold int32
  rw [h]

lemma int32_range (x : Int) : -2147483648 ≤ int32 x ∧ int32 x < 2147483648 := by
  unfold int32
  dsimp only
  have h1 : 0 ≤ x % 4294967296 := Int.emod_nonneg x (by norm_num)
  have h2 : x % 4294967296 < 4294967296 := Int.emod_lt_of_pos x (by norm_num)
  split <;> omega

lemma hashStep_eq (h : Int) (c : Nat) : hashStep h c = hashStepSpec h c := by
  unfold hashStep hashStepSpec
  apply int32_congr
  have := int32_emod (h * 32)
  omega

lemma hashFold_eq (l : List Nat) (a : Int) :
    l.foldl hashStep a = l.foldl hashStepSpec a := by
  induction l generalizing a with
  | nil => rfl
  | cons c cs ih => simp only [List.foldl_cons, hashStep_eq, ih]

lemma hashFold_range (l : List Nat) (a : Int)
    (ha : -2147483648 ≤ a ∧ a < 2147483648) :
    -2147483648 ≤ l.foldl hashStep a ∧ l.foldl hashStep a < 2147483648 := by
  induction l generalizing a with
  | nil => exact ha
  | cons c cs ih => exact ih _ (int32_range _)

/-- C1: for every string seed, `hashString` computes exactly the
specification's algorithm: fold the character codes in order through a
32-bit signed accumulator starting at 0 with step
`acc = int32 (acc * 31 + c)`, then take the absolute value; and the empty
string hashes to 0. -/
theorem hashString_eq_spec (s : List Nat) :
    hashString s = hashStringSpec s ∧ hashString [] = 0 := by
  constructor
  · unfold hashString hashStringSpec
    rw [hashFold_eq]
  · rfl

/-- C6: `hashString` is deterministic, non-negative, and its value always
fits in 32 bits (it is in fact at most `2 ^ 31`, the absolute value of the
minimum signed 32-bit integer). -/
theorem hashString_range (s : List Nat) :
    hashString s = hashString s ∧ 0 ≤ hashString s ∧
      hashString s ≤ 2147483648 ∧ hashString s < 4294967296 := by
  refine ⟨rfl, ?_, ?_, ?_⟩
  · unfold hashString
    exact Int.natCast_nonneg _
  · unfold hashString
    have := hashFold_range s 0 (by norm_num)
    omega
  · unfold hashString
    have := hashFold_range s 0 (by norm_num)
    omega

/-- C2: `deterministicColor` returns exactly `"hsl(H, 70%, 50%)"` with
`H = hashString seed % 360`; the hue is always in `[0, 360)`; and repeated
calls agree (the function is pure). -/
theorem deterministicColor_spec (s : List Nat) :
    deterministicColor s = "hsl(" ++ toString (hashString s % 360) ++ ", 70%, 50%)" ∧
      0 ≤ hashString s % 360 ∧ hashString s % 360 < 360 ∧
      deterministicColor s = deterministicColor s := by
  refine ⟨?_, Int.emod_nonneg _ (by norm_num), Int.emod_lt_of_pos _ (by norm_num), rfl⟩
  apply String.ext
  simp only [deterministicColor, String.data_append, List.append_assoc,
    List.append_right_inj]
  decide

/-- Model of the JavaScript default-resolution idiom `x || d` for a
string-or-undefined value: `undefined` and the empty string (the only falsy
strings) both select the default. -/
def jsOr (x : Option String) (d : String) : String :=
  match x with
  | some s => if s = "" then d else s
  | none => d

/-!
JavaScript numbers are IEEE-754 binary64 values.  The renderer computes
`Math.min(width, height) * 0.3` in doubles and interpolates the ECMAScript
number-to-string of the result.  A positive finite double is modelled
exactly as a dyadic rational `m * 2 ^ e` (`Nat × Int`); `roundRatTo53`
performs IEEE round-to-nearest, ties-to-even at 53 significand bits (the
full normal range; exponent overflow and subnormals are unreachable here),
and `jsDoubleToString` implements the ECMAScript `Number::toString`
shortest-round-trip decimal representation.
-/

/-- Number of binary digits of `n` (`⌊log₂ n⌋ + 1` for `n > 0`, else 0),
via an explicit fuel so the kernel can evaluate it. -/
def bitLenAux : Nat → Nat → Nat
  | 0, _ => 0
  | fuel + 1, n => if n = 0 then 0 else bitLenAux fuel (n / 2) + 1

/-- Number of binary digits of `n`. -/
def bitLen (n : Nat) : Nat := bitLenAux (n + 1) n

/-- Round the non-negative rational `p / q` to the nearest integer,
ties-to-even. -/
def roundHalfEven (p q : Nat) : Nat :=
  let d := p / q
  let r := p % q
  if q < 2 * r then d + 1
  else if 2 * r < q then d
  else if d % 2 = 0 then d else d + 1

/-- Round the positive rational `num / den` to the nearest binary64 value
(round-to-nearest, ties-to-even, 53-bit significand), returned as a
normalized dyadic `(m, e)` with value `m * 2 ^ e` and `2^52 ≤ m < 2^53`
(or `(0, 0)` for 0).  Valid on the normal finite range of binary64. -/
def roundRatTo53 (num den : Nat) : Nat × Int :=
  if num = 0 then (0, 0)
  else
    let cand := fun (s : Int) =>
      if 0 ≤ s then roundHalfEven (num * 2 ^ s.toNat) den
      else roundHalfEven num (den * 2 ^ (-s).toNat)
    let s : Int := 53 - ((bitLen num : Int) - (bitLen den : Int))
    let m := cand s
    if m < 2 ^ 52 then (cand (s + 1), -(s + 1))
    else if 2 ^ 53 ≤ m then
      let m2 := cand (s - 1)
      if 2 ^ 53 ≤ m2 then (m2 / 2, -(s - 2)) else (m2, -(s - 1))
    else (m, -s)

/-- The binary64 value of a natural number (exact below `2 ^ 53`, rounded
to nearest above). -/
def jsOfNat (n : Nat) : Nat × Int := roundRatTo53 n 1

/-- The binary64 value nearest to the literal `0.3`:
`5404319552844595 * 2 ^ (-54)`. -/
def double03 : Nat × Int := (5404319552844595, -54)

/-- IEEE-754 multiplication of two positive finite doubles: the exact
product, rounded back to 53 bits. -/
def jsMulDouble (a b : Nat × Int) : Nat × Int :=
  let p := a.1 * b.1
  let e := a.2 + b.2
  if 0 ≤ e then roundRatTo53 (p * 2 ^ e.toNat) 1 else roundRatTo53 p (2 ^ (-e).toNat)

/-- `⌊m * 2 ^ e⌋` for a non-negative dyadic. -/
def dyadicFloor (m : Nat) (e : Int) : Nat :=
  if 0 ≤ e then m * 2 ^ e.toNat else m / 2 ^ (-e).toNat

/-- Value equality of two non-negative dyadics. -/
def dyadicEq (m1 : Nat) (e1 : Int) (m2 : Nat) (e2 : Int) : Bool :=
  if e1 ≤ e2 then m1 == m2 * 2 ^ (e2 - e1).toNat else m1 * 2 ^ (e1 - e2).toNat == m2

/-- For a value `< 1`: the least `j ≥ 1` with `value * 10 ^ j ≥ 1`,
computed as the least `j` with `acc * 10 ≥ twoPow` starting from
`acc = m`, `twoPow = 2 ^ (-e)`. -/
def decExpAux : Nat → Nat → Nat → Nat
  | 0, _, _ => 1
  | fuel + 1, acc, twoPow =>
    if twoPow ≤ acc * 10 then 1 else decExpAux fuel (acc * 10) twoPow + 1

/-- The decimal exponent of a positive dyadic `v = m * 2 ^ e`: the unique
`n` with `10 ^ (n - 1) ≤ v < 10 ^ n`. -/
def decExp (m : Nat) (e : Int) : Int :=
  let f := dyadicFloor m e
  if 0 < f then ((toString f).length : Int)
  else -(decExpAux 1400 m (2 ^ (-e).toNat) : Int) + 1

/-- The `k`-digit decimal significand nearest to `v = m * 2 ^ e` with
decimal exponent `n`: `round(v * 10 ^ (k - n))`, ties-to-even. -/
def sigDigits (m : Nat) (e : Int) (n : Int) (k : Nat) : Nat :=
  let t : Int := (k : Int) - n
  let num := m * (if 0 ≤ e then 2 ^ e.toNat else 1) * (if 0 ≤ t then 10 ^ t.toNat else 1)
  let den := (if 0 ≤ e then 1 else 2 ^ (-e).toNat) * (if 0 ≤ t then 1 else 10 ^ (-t).toNat)
  roundHalfEven num den

/-- Does the decimal `s * 10 ^ p` round (nearest, ties-to-even) back to the
double `m * 2 ^ e`? -/
def decEqDouble (s : Nat) (p : Int) (m : Nat) (e : Int) : Bool :=
  let num := s * (if 0 ≤ p then 10 ^ p.toNat else 1)
  let den := if 0 ≤ p then 1 else 10 ^ (-p).toNat
  let r := roundRatTo53 num den
  dyadicEq r.1 r.2 m e

/-- The shortest decimal representation `(s, n, k)` of the positive double
`m * 2 ^ e` per ECMAScript `Number::toString`: the least `k ≥ 1` and the
`k`-digit significand `s` closest to the value (ties-to-even) such that
`s * 10 ^ (n - k)` reads back as exactly this double; when the rounded
significand overflows to `10 ^ k` the candidate is renormalized to
`10 ^ (k - 1)` with decimal exponent `n + 1`. -/
def shortestAux (m : Nat) (e : Int) (n : Int) : Nat → Nat → Nat × Int × Nat
  | 0, _ => (sigDigits m e n 17, n, 17)
  | fuel + 1, k =>
    let s := sigDigits m e n k
    if s == 10 ^ k then
      let s2 := 10 ^ (k - 1)
      if decEqDouble s2 (n + 1 - (k : Int)) m e then (s2, n + 1, k)
      else shortestAux m e n fuel (k + 1)
    else if decEqDouble s (n - (k : Int)) m e then (s, n, k)
    else shortestAux m e n fuel (k + 1)

/-- ECMAScript `Number::toString(10)` for a non-negative finite double
given as a dyadic `(m, e)`: the shortest round-tripping digit string `s`
with decimal exponent `n`, laid out per the specification (plain digits
with trailing zeros for integral `n ≤ 21`, a decimal point inside or after
a `0.` prefix for `-6 < n ≤ 21`, exponent notation otherwise). -/
def jsDoubleToString (d : Nat × Int) : String :=
  if d.1 == 0 then "0"
  else
    let r := shortestAux d.1 d.2 (decExp d.1 d.2) 18 1
    let s := r.1
    let n := r.2.1
    let k := r.2.2
    let σ := toString s
    if (k : Int) ≤ n ∧ n ≤ 21 then
      σ ++ String.mk (List.replicate (n - (k : Int)).toNat '0')
    else if 0 < n ∧ n ≤ 21 then
      String.mk (σ.data.take n.toNat) ++ "." ++ String.mk (σ.data.drop n.toNat)
    else if -6 < n ∧ n ≤ 0 then
      "0." ++ String.mk (List.replicate (-n).toNat '0') ++ σ
    else
      let ex := n - 1
      let es := (if 0 ≤ ex then "e+" ++ toString ex.toNat else "e-" ++ toString (-ex).toNat)
      if k == 1 then σ ++ es
      else String.mk (σ.data.take 1) ++ "." ++ String.mk (σ.data.drop 1) ++ es

/-- The whitespace characters relevant to `String.prototype.trim` that can
occur in the renderer's template. -/
def jsWhitespace (c : Char) : Bool :=
  c == ' ' || c == '\t' || c == '\n' || c == '\r' || c == '\x0b' || c == '\x0c'

/-- `trim()` on the underlying character list: drop whitespace from both
ends. -/
def trimChars (l : List Char) : List Char :=
  ((l.dropWhile jsWhitespace).reverse.dropWhile jsWhitespace).reverse

/-- Model of JavaScript `String.prototype.trim`. -/
def jsTrim (s : String) : String :=
  String.mk (trimChars s.data)

/-- Model of `PlaceholderOptions` (src/types.ts).  The seed is kept as its
code-unit list (the form `hashString` consumes); optional fields are
`Option`s, with `none` for an absent (`undefined`) field. -/
structure PlaceholderOptions where
  width : Nat
  height : Nat
  seed : List Nat
  format : Option String := none
  text : Option String := none
  textColor : Option String := none
  backgroundColor : Option String := none

/-- Model of `renderSvg` (src/index.ts lines 16-42): resolve the three
overridable fields with `||`, compute `fontSize = min(width, height) * 0.3`,
interpolate everything into the template literal, and `trim()` the result. -/
def renderSvg (o : PlaceholderOptions) : String :=
  let width := o.width
  let height := o.height
  let seed := o.seed
  let bgColor := jsOr o.backgroundColor (deterministicColor seed)
  let displayText := jsOr o.text (toString width ++ "x" ++ toString height)
  let fgColor := jsOr o.textColor ("#ffffff")
  let fontSize := jsMulDouble (jsOfNat (min width height)) double03
  let svgContent :=
    "<?xml version=\"1.0\" encoding=\"UTF-8\"?>\n    <svg width=\"" ++ toString width ++
      "\" height=\"" ++ toString height ++ "\" viewBox=\"0 0 " ++ toString width ++
      " " ++ toString height ++
      "\" xmlns=\"http://www.w3.org/2000/svg\">\n      <rect width=\"100%\" height=\"100%\" fill=\"" ++
      bgColor ++
      "\"/>\n      <text\n        x=\"50%\"\n        y=\"50%\"\n        font-family=\"sans-serif\"\n        font-size=\"" ++
      jsDoubleToString fontSize ++
      "\"\n        fill=\"" ++ fgColor ++
      "\"\n        text-anchor=\"middle\"\n        dominant-baseline=\"middle\"\n      >" ++
      displayText ++ "</text>\n    </svg>\n  "
  jsTrim svgContent

lemma dropWhile_ws_append (a b : List Char) (ha : ∀ c ∈ a, jsWhitespace c = true) :
    (a ++ b).dropWhile jsWhitespace = b.dropWhile jsWhitespace := by
  induction a with
  | nil => rfl
  | cons c cs ih =>
    rw [List.cons_append, List.dropWhile_cons, if_pos (ha c (List.mem_cons_self c cs))]
    exact ih fun x hx => ha x (List.mem_cons_of_mem c hx)

lemma trimChars_append (m t : List Char)
    (h1 : ∃ c r, m = c :: r ∧ jsWhitespace c = false)
    (h2 : m.reverse.dropWhile jsWhitespace = m.reverse)
    (ht : ∀ c ∈ t, jsWhitespace c = true) :
    trimChars (m ++ t) = m := by
  obtain ⟨c, r, rfl, hc⟩ := h1
  unfold trimChars
  rw [List.cons_append, List.dropWhile_cons, if_neg (by simp [hc]),
    ← List.cons_append, List.reverse_append,
    dropWhile_ws_append t.reverse (c :: r).reverse
      (fun x hx => ht x (List.mem_reverse.mp hx)),
    h2, List.reverse_reverse]

lemma jsTrim_data (s : String) : (jsTrim s).data = trimChars s.data := rfl

lemma jsTrim_template (s1 s2 b f g t : String) :
    jsTrim ("<?xml version=\"1.0\" encoding=\"UTF-8\"?>\n    <svg width=\"" ++ s1 ++
        "\" height=\"" ++ s2 ++ "\" viewBox=\"0 0 " ++ s1 ++
        " " ++ s2 ++
        "\" xmlns=\"http://www.w3.org/2000/svg\">\n      <rect width=\"100%\" height=\"100%\" fill=\"" ++
        b ++
        "\"/>\n      <text\n        x=\"50%\"\n        y=\"50%\"\n        font-family=\"sans-serif\"\n        font-size=\"" ++
        f ++
        "\"\n        fill=\"" ++ g ++
        "\"\n        text-anchor=\"middle\"\n        dominant-baseline=\"middle\"\n      >" ++
        t ++ "</text>\n    </svg>\n  ") =
      "<?xml version=\"1.0\" encoding=\"UTF-8\"?>\n    <svg width=\"" ++ s1 ++
        "\" height=\"" ++ s2 ++ "\" viewBox=\"0 0 " ++ s1 ++
        " " ++ s2 ++
        "\" xmlns=\"http://www.w3.org/2000/svg\">\n      <rect width=\"100%\" height=\"100%\" fill=\"" ++
        b ++
        "\"/>\n      <text\n        x=\"50%\"\n        y=\"50%\"\n        font-family=\"sans-serif\"\n        font-size=\"" ++
        f ++
        "\"\n        fill=\"" ++ g ++
        "\"\n        text-anchor=\"middle\"\n        dominant-baseline=\"middle\"\n      >" ++
        t ++ "</text>\n    </svg>" := by
  apply String.ext
  rw [jsTrim_data]
  rw [show ("</text>\n    </svg>\n  " : String) = "</text>\n    </svg>" ++ "\n  " from rfl]
  rw [← String.append_assoc]
  rw [String.data_append]
  apply trimChars_append
  · exact ⟨'<', _, rfl, rfl⟩
  · rw [String.data_append, List.reverse_append]
    rfl
  · decide

/-- C3: `renderSvg` resolves the background to the `backgroundColor`
override when given (and non-empty), else the seed-derived color; the label
to the `text` override when given (and non-empty), else `"{width}x{height}"`;
the text fill to the `textColor` override when given (and non-empty), else
the fixed light default `#ffffff`; computes the font size as 30% of
`min(width, height)`; and emits exactly the self-contained SVG document
whose root is sized `width` by `height`, containing a full-bleed `<rect>`
filled with the background color and a horizontally and vertically centered
`<text>` node (`x="50%" y="50%"`, `text-anchor="middle"`,
`dominant-baseline="middle"`) with the label at that font size in a
sans-serif family. -/
theorem renderSvg_spec (o : PlaceholderOptions) :
    renderSvg o =
      "<?xml version=\"1.0\" encoding=\"UTF-8\"?>\n    <svg width=\"" ++ toString o.width ++
        "\" height=\"" ++ toString o.height ++ "\" viewBox=\"0 0 " ++ toString o.width ++
        " " ++ toString o.height ++
        "\" xmlns=\"http://www.w3.org/2000/svg\">\n      <rect width=\"100%\" height=\"100%\" fill=\"" ++
        (match o.backgroundColor with
          | some c => if c = "" then deterministicColor o.seed else c
          | none => deterministicColor o.seed) ++
        "\"/>\n      <text\n        x=\"50%\"\n        y=\"50%\"\n        font-family=\"sans-serif\"\n        font-size=\"" ++
        jsDoubleToString (jsMulDouble (jsOfNat (min o.width o.height)) double03) ++
        "\"\n        fill=\"" ++
        (match o.textColor with
          | some c => if c = "" then "#ffffff" else c
          | none => "#ffffff") ++
        "\"\n        text-anchor=\"middle\"\n        dominant-baseline=\"middle\"\n      >" ++
        (match o.text with
          | some s => if s = "" then toString o.width ++ "x" ++ toString o.height else s
          | none => toString o.width ++ "x" ++ toString o.height) ++
        "</text>\n    </svg>" := by
  obtain ⟨w, h, sd, fmt, txt, tc, bc⟩ := o
  have e : renderSvg ⟨w, h, sd, fmt, txt, tc, bc⟩ =
      jsTrim ("<?xml version=\"1.0\" encoding=\"UTF-8\"?>\n    <svg width=\"" ++ toString w ++
        "\" height=\"" ++ toString h ++ "\" viewBox=\"0 0 " ++ toString w ++
        " " ++ toString h ++
        "\" xmlns=\"http://www.w3.org/2000/svg\">\n      <rect width=\"100%\" height=\"100%\" fill=\"" ++
        jsOr bc (deterministicColor sd) ++
        "\"/>\n      <text\n        x=\"50%\"\n        y=\"50%\"\n        font-family=\"sans-serif\"\n        font-size=\"" ++
        jsDoubleToString (jsMulDouble (jsOfNat (min w h)) double03) ++
        "\"\n        fill=\"" ++ jsOr tc ("#ffffff") ++
        "\"\n        text-anchor=\"middle\"\n        dominant-baseline=\"middle\"\n      >" ++
        jsOr txt (toString w ++ "x" ++ toString h) ++ "</text>\n    </svg>\n  ") := rfl
  rw [e, jsTrim_template]
  cases bc <;> cases tc <;> cases txt <;> rfl

/-- A JavaScript error value: `code` models the optional `code` property the
loader inspects (`MODULE_NOT_FOUND`), `message` the error message.  A plain
`new Error(msg)` carries no `code`. -/
structure JsError where
  code : Option String
  message : String
deriving DecidableEq

/-- What the dynamic `import('canvas')` would do if reached in this call. -/
inductive LoadResult where
  | success
  | failure (e : JsError)
deriving DecidableEq

/-- The host environment of one `renderPng` call: whether `window` is
defined, the outcome of the optional module load, whether
`getContext('2d')` returns a context, and the data URL the backend
serializes the surface to. -/
structure Env where
  hasWindow : Bool
  load : LoadResult
  getContextOk : Bool
  pngDataUrl : String
deriving DecidableEq

/-- Process-wide mutable state: the lazily initialized `NodeCanvas` module
handle (src/index.ts line 8), `none` while unset. -/
structure ProcState where
  nodeCanvas : Option Unit
deriving DecidableEq

/-- A drawing command issued against the 2D context, in program order. -/
inductive DrawOp where
  | setFillStyle (color : String)
  | fillRect (x y w h : ℚ)
  | setFont (font : String)
  | setTextAlign (a : String)
  | setTextBaseline (b : String)
  | fillText (s : String) (x y : ℚ)
  | toDataURL (mime : String)
deriving DecidableEq

/-- Which renderer the dispatcher entered. -/
inductive RendererCall where
  | svgRenderer
  | pngRenderer
deriving DecidableEq

/-- The error message thrown when `import('canvas')` fails with
`MODULE_NOT_FOUND` (src/index.ts lines 63-66). -/
def canvasUnavailableMsg : String :=
  "Canvas API not available for PNG generation in Node.js. Please install \"canvas\" or \"@napi-rs/canvas\" as a peer dependency (e.g., \x60npm install canvas\x60), or use \x60format: \"svg\"\x60."

/-- Result of one `renderPng` call: the process state afterwards, the
settled value or rejection, and the drawing commands issued. -/
structure PngResult where
  state : ProcState
  result : Except JsError String
  ops : List DrawOp

/-- The part of `renderPng` after a surface exists (src/index.ts
lines 83-105): get the 2D context or throw, resolve the three overridable
fields with `||`, fill the background, draw the centered label, serialize. -/
def drawPng (env : Env) (st : ProcState) (o : PlaceholderOptions) : PngResult :=
  if env.getContextOk then
    let bgColor := jsOr o.backgroundColor (deterministicColor o.seed)
    let displayText := jsOr o.text (toString o.width ++ "x" ++ toString o.height)
    let fgColor := jsOr o.textColor ("#ffffff")
    let fontSize := jsMulDouble (jsOfNat (min o.width o.height)) double03
    { state := st
      result := .ok env.pngDataUrl
      ops := [.setFillStyle bgColor,
        .fillRect 0 0 (o.width : ℚ) (o.height : ℚ),
        .setFont (jsDoubleToString fontSize ++ "px sans-serif"),
        .setFillStyle fgColor,
        .setTextAlign ("center"),
        .setTextBaseline ("middle"),
        .fillText displayText (mkRat ((o.width : Nat) : Int) 2) (mkRat ((o.height : Nat) : Int) 2),
        .toDataURL ("image/png")] }
  else
    { state := st
      result := .error ⟨none, "Could not get 2D rendering context from canvas."⟩
      ops := [] }

/-- Model of `renderPng` (src/index.ts lines 50-105).  In a browser
(`window` defined) a native canvas is used directly.  Headless, the cached
`NodeCanvas` handle is reused if set; otherwise `import('canvas')` runs: on
success the handle is cached and drawing proceeds, on `MODULE_NOT_FOUND` the
descriptive error is thrown, and any other load error is re-thrown
unchanged. -/
def renderPng (env : Env) (st : ProcState) (o : PlaceholderOptions) : PngResult :=
  if env.hasWindow then
    drawPng env st o
  else
    match st.nodeCanvas with
    | some _ => drawPng env st o
    | none =>
      match env.load with
      | .success => drawPng env ⟨some ()⟩ o
      | .failure e =>
        if e.code = some ("MODULE_NOT_FOUND") then
          { state := st, result := .error ⟨none, canvasUnavailableMsg⟩, ops := [] }
        else
          { state := st, result := .error e, ops := [] }

/-- The dynamic `import('canvas')` in `renderPng` is reached iff `window` is
undefined and `NodeCanvas` is unset (src/index.ts lines 55-61). -/
def attemptsLoad (env : Env) (st : ProcState) : Bool :=
  !env.hasWindow && st.nodeCanvas.isNone

/-- The attempt flags of a sequence of `renderPng` calls threading the
process-wide state: for each call, whether it reaches the dynamic import. -/
def runPngCalls (o : PlaceholderOptions) : List Env → ProcState → List Bool
  | [], _ => []
  | e :: es, st => attemptsLoad e st :: runPngCalls o es (renderPng e st o).state

/-- The characters `encodeURIComponent` leaves unescaped:
`A-Z a-z 0-9 - _ . ! ~ * ' ( )`. -/
def isUriUnreserved (c : Char) : Bool :=
  (65 ≤ c.toNat && c.toNat ≤ 90) || (97 ≤ c.toNat && c.toNat ≤ 122) ||
    (48 ≤ c.toNat && c.toNat ≤ 57) ||
    c == '-' || c == '_' || c == '.' || c == '!' || c == '~' || c == '*' ||
    c == '\x27' || c == '(' || c == ')'

/-- Uppercase hexadecimal digit, as `encodeURIComponent` emits. -/
def hexDigit (n : Nat) : Char :=
  if n < 10 then Char.ofNat (48 + n) else Char.ofNat (55 + n)

/-- Percent-encoding of one byte (reduction mod 256 is a no-op for UTF-8
bytes). -/
def encodeByte (b : Nat) : List Char :=
  ['%', hexDigit (b % 256 / 16), hexDigit (b % 16)]

/-- UTF-8 encoding of one Unicode scalar value. -/
def utf8Bytes (c : Char) : List Nat :=
  let n := c.toNat
  if n < 128 then [n]
  else if n < 2048 then [192 + n / 64, 128 + n % 64]
  else if n < 65536 then [224 + n / 4096, 128 + n / 64 % 64, 128 + n % 64]
  else [240 + n / 262144, 128 + n / 4096 % 64, 128 + n / 64 % 64, 128 + n % 64]

/-- Percent-encoding of a byte sequence. -/
def encodeBytes : List Nat → List Char
  | [] => []
  | b :: bs => encodeByte b ++ encodeBytes bs

/-- Character-list form of `encodeURIComponent`: unreserved characters pass
through, every other character is percent-encoded byte-wise in UTF-8. -/
def encodeURIChars : List Char → List Char
  | [] => []
  | c :: cs => (if isUriUnreserved c then [c] else encodeBytes (utf8Bytes c)) ++ encodeURIChars cs

/-- Model of the JavaScript builtin `encodeURIComponent`. -/
def encodeURIComponent (s : String) : String :=
  String.mk (encodeURIChars s.data)

/-- Character-list form of a global single-character regex replacement. -/
def replaceChars (t : Char) (r : List Char) : List Char → List Char
  | [] => []
  | c :: cs => (if c = t then r else [c]) ++ replaceChars t r cs

/-- Model of `s.replace(/t/g, r)` for a single-character pattern. -/
def jsReplaceChar (s : String) (t : Char) (r : String) : String :=
  String.mk (replaceChars t r.data s.data)

/-- Modelled from the spec (§6): the percent-encoding that "additionally
escapes single and double quote characters beyond standard
percent-encoding" — quotes map to `%27` / `%22`, other unreserved
characters pass through, everything else is percent-encoded byte-wise. -/
def specUriEncodeChars : List Char → List Char
  | [] => []
  | c :: cs =>
    (if c = '\x27' then ['%', '2', '7']
     else if c = '\x22' then ['%', '2', '2']
     else if isUriUnreserved c then [c]
     else encodeBytes (utf8Bytes c)) ++ specUriEncodeChars cs

/-- String form of `specUriEncodeChars`. -/
def specUriEncode (s : String) : String :=
  String.mk (specUriEncodeChars s.data)

/-- Result of one `generatePlaceholder` call: final process state, settled
value or rejection, renderers entered, and drawing commands issued. -/
structure GenResult where
  state : ProcState
  result : Except JsError String
  rendererCalls : List RendererCall
  drawOps : List DrawOp

/-- Model of `generatePlaceholder` (src/index.ts lines 139-154): default the
format with `||` to `'png'`, dispatch to `renderSvg` (URL-encoding the
markup with extra quote escaping) or `renderPng`, and throw on any other
format. -/
def generatePlaceholder (env : Env) (st : ProcState) (options : PlaceholderOptions) :
    GenResult :=
  let format := jsOr options.format ("png")
  if format = "svg" then
    let svgString := renderSvg options
    let encodedSvg :=
      jsReplaceChar (jsReplaceChar (encodeURIComponent svgString) '\x27' ("%27")) '\x22' ("%22")
    { state := st
      result := .ok ("data:image/svg+xml;charset=utf-8," ++ encodedSvg)
      rendererCalls := [.svgRenderer]
      drawOps := [] }
  else if format = "png" then
    let r := renderPng env st options
    { state := r.state, result := r.result
      rendererCalls := [.pngRenderer], drawOps := r.ops }
  else
    { state := st
      result := .error
        ⟨none, "Unsupported format: " ++ format ++ ". Only \x27png\x27 and \x27svg\x27 are supported."⟩
      rendererCalls := []
      drawOps := [] }

lemma replaceChars_append (t : Char) (r l1 l2 : List Char) :
    replaceChars t r (l1 ++ l2) = replaceChars t r l1 ++ replaceChars t r l2 := by
  induction l1 with
  | nil => rfl
  | cons c cs ih => simp [replaceChars, ih]

lemma replaceChars_id (t : Char) (r : List Char) (l : List Char)
    (h : ∀ c ∈ l, ¬ c = t) : replaceChars t r l = l := by
  induction l with
  | nil => rfl
  | cons c cs ih =>
    simp only [replaceChars]
    rw [if_neg (h c (List.mem_cons_self c cs)),
      ih (fun x hx => h x (List.mem_cons_of_mem c hx))]
    rfl

lemma hexDigit_ne_quote : ∀ k < 16, ¬ hexDigit k = '\x27' ∧ ¬ hexDigit k = '\x22' := by
  decide

lemma encodeByte_ne_quote (b : Nat) :
    ∀ c ∈ encodeByte b, ¬ c = '\x27' ∧ ¬ c = '\x22' := by
  intro c hc
  simp only [encodeByte, List.mem_cons, List.not_mem_nil, or_false] at hc
  rcases hc with rfl | rfl | rfl
  · exact ⟨by decide, by decide⟩
  · exact hexDigit_ne_quote (b % 256 / 16) (by omega)
  · exact hexDigit_ne_quote (b % 16) (by omega)

lemma encodeBytes_ne_quote (bs : List Nat) :
    ∀ c ∈ encodeBytes bs, ¬ c = '\x27' ∧ ¬ c = '\x22' := by
  induction bs with
  | nil => intro c hc; simp [encodeBytes] at hc
  | cons b bs ih =>
    intro c hc
    simp only [encodeBytes, List.mem_append] at hc
    rcases hc with h | h
    · exact encodeByte_ne_quote b c h
    · exact ih c h

lemma encode_replace (l : List Char) :
    replaceChars '\x22' (("%22" : String)).data
        (replaceChars '\x27' (("%27" : String)).data (encodeURIChars l)) =
      specUriEncodeChars l := by
  induction l with
  | nil => rfl
  | cons c cs ih =>
    simp only [encodeURIChars, specUriEncodeChars, replaceChars_append, ih]
    congr 1
    by_cases h1 : c = '\x27'
    · subst h1; decide
    · by_cases h2 : c = '\x22'
      · subst h2; decide
      · by_cases h3 : isUriUnreserved c
        · rw [if_pos h3, if_neg h1, if_neg h2]
          simp [replaceChars, h1, h2]
        · rw [if_neg h3, if_neg h1, if_neg h2,
            replaceChars_id _ _ _ (fun x hx => (encodeBytes_ne_quote _ x hx).1),
            replaceChars_id _ _ _ (fun x hx => (encodeBytes_ne_quote _ x hx).2)]

lemma specUriEncodeChars_ne_quote (l : List Char) :
    ∀ c ∈ specUriEncodeChars l, ¬ c = '\x27' ∧ ¬ c = '\x22' := by
  induction l with
  | nil => intro c hc; simp [specUriEncodeChars] at hc
  | cons d ds ih =>
    intro c hc
    simp only [specUriEncodeChars, List.mem_append] at hc
    rcases hc with h | h
    · by_cases h1 : d = '\x27'
      · rw [if_pos h1] at h
        simp only [List.mem_cons, List.not_mem_nil, or_false] at h
        rcases h with rfl | rfl | rfl <;> exact ⟨by decide, by decide⟩
      · rw [if_neg h1] at h
        by_cases h2 : d = '\x22'
        · rw [if_pos h2] at h
          simp only [List.mem_cons, List.not_mem_nil, or_false] at h
          rcases h with rfl | rfl | rfl <;> exact ⟨by decide, by decide⟩
        · rw [if_neg h2] at h
          by_cases h3 : isUriUnreserved d
          · rw [if_pos h3] at h
            simp only [List.mem_singleton] at h
            subst h
            exact ⟨h1, h2⟩
          · rw [if_neg h3] at h
            exact encodeBytes_ne_quote _ c h
    · exact ih c h

lemma jsEncode_eq (s : String) :
    jsReplaceChar (jsReplaceChar (encodeURIComponent s) '\x27' ("%27")) '\x22' ("%22") =
      specUriEncode s :=
  congrArg String.mk (encode_replace s.data)

lemma specUriEncode_data (s : String) :
    (specUriEncode s).data = specUriEncodeChars s.data := rfl

/-- C5: for every request whose format resolves to `"svg"`,
`generatePlaceholder` returns exactly the prefix
`data:image/svg+xml;charset=utf-8,` followed by the percent-encoding of the
markup in which single and double quotes are additionally escaped to `%27`
and `%22`; consequently the encoded part contains no raw quote
characters. -/
theorem generatePlaceholder_svg_encoding (env : Env) (st : ProcState)
    (o : PlaceholderOptions) (h : jsOr o.format ("png") = "svg") :
    (generatePlaceholder env st o).result =
      .ok ("data:image/svg+xml;charset=utf-8," ++ specUriEncode (renderSvg o)) ∧
      ∀ c ∈ (specUriEncode (renderSvg o)).data, ¬ c = '\x27' ∧ ¬ c = '\x22' := by
  constructor
  · simp only [generatePlaceholder, h, if_true]
    rw [jsEncode_eq]
  · intro c hc
    rw [specUriEncode_data] at hc
    exact specUriEncodeChars_ne_quote _ c hc

/-- Witness for C5 at a concrete request. -/
theorem generatePlaceholder_svg_encoding_witness :
    jsOr (some ("svg")) ("png") = "svg" ∧
      (generatePlaceholder ⟨true, .success, true, ("u")⟩ ⟨none⟩
          ⟨100, 100, [116, 101, 115, 116], some ("svg"), none, none, none⟩).result =
        .ok ("data:image/svg+xml;charset=utf-8," ++
          specUriEncode (renderSvg ⟨100, 100, [116, 101, 115, 116], some ("svg"), none, none, none⟩)) :=
  ⟨rfl, (generatePlaceholder_svg_encoding ⟨true, .success, true, ("u")⟩ ⟨none⟩
    ⟨100, 100, [116, 101, 115, 116], some ("svg"), none, none, none⟩ rfl).1⟩

/-- C4 (amended): `generatePlaceholder` defaults the output kind to png when
the `format` field is absent or the empty string (defaults are resolved by
truthiness), and for every non-empty format value other than `'svg'` and
`'png'` it fails immediately with the exact message
`Unsupported format: {format}. Only 'png' and 'svg' are supported.`,
performing no rendering work and invoking no renderer before failing. -/
theorem generatePlaceholder_format_spec (env : Env) (st : ProcState)
    (o : PlaceholderOptions) :
    ((o.format = none ∨ o.format = some "") →
      (generatePlaceholder env st o).rendererCalls = [.pngRenderer]) ∧
    (∀ f, o.format = some f → ¬ f = "" → ¬ f = "svg" → ¬ f = "png" →
      (generatePlaceholder env st o).result =
          .error ⟨none, "Unsupported format: " ++ f ++
            ". Only \x27png\x27 and \x27svg\x27 are supported."⟩ ∧
        (generatePlaceholder env st o).rendererCalls = [] ∧
        (generatePlaceholder env st o).drawOps = [] ∧
        (generatePlaceholder env st o).state = st) := by
  constructor
  · intro hf
    rcases hf with hf | hf <;>
      · simp only [generatePlaceholder, hf]
        rfl
  · intro f hf h1 h2 h3
    simp only [generatePlaceholder, hf, jsOr]
    rw [if_neg h1, if_neg h2, if_neg h3]
    exact ⟨rfl, rfl, rfl, rfl⟩

/-- Witness for C4's amended universal at the concrete format `"jpeg"`. -/
theorem generatePlaceholder_format_spec_witness :
    (generatePlaceholder ⟨true, .success, true, ("u")⟩ ⟨none⟩
        ⟨100, 100, [], some ("jpeg"), none, none, none⟩).result =
      .error ⟨none, "Unsupported format: jpeg. Only \x27png\x27 and \x27svg\x27 are supported."⟩ ∧
    (generatePlaceholder ⟨true, .success, true, ("u")⟩ ⟨none⟩
        ⟨100, 100, [], some ("jpeg"), none, none, none⟩).rendererCalls = [] := by
  have h := (generatePlaceholder_format_spec ⟨true, .success, true, ("u")⟩ ⟨none⟩
      ⟨100, 100, [], some ("jpeg"), none, none, none⟩).2 "jpeg" rfl
      (by decide) (by decide) (by decide)
  exact ⟨by rw [h.1]; rfl, h.2.1⟩

/-- C4 counterexample: a present-but-empty `format` is *not* rejected with
the unsupported-format error — `'' || 'png'` resolves to `'png'`, so the
raster renderer is invoked and (in a working environment) the call
succeeds.  This refutes the claim's "for every format value other than
'svg' and 'png' it fails immediately". -/
theorem generatePlaceholder_empty_format_counterexample :
    (generatePlaceholder ⟨false, .success, true, ("png-url")⟩ ⟨none⟩
        ⟨100, 100, [], some (""), none, none, none⟩).rendererCalls = [.pngRenderer] ∧
    (generatePlaceholder ⟨false, .success, true, ("png-url")⟩ ⟨none⟩
        ⟨100, 100, [], some (""), none, none, none⟩).result = .ok ("png-url") := by
  exact ⟨rfl, rfl⟩

/-- C7: headless (`window` undefined, cache empty), a `MODULE_NOT_FOUND`
failure of the module load rejects with the descriptive message instructing
the caller to install the canvas module (`npm install canvas`) or use the
svg output kind, while any other load error is re-raised unchanged, not
wrapped. -/
theorem renderPng_load_error_spec (env : Env) (st : ProcState) (o : PlaceholderOptions)
    (e : JsError) (hw : env.hasWindow = false) (hc : st.nodeCanvas = none)
    (hl : env.load = .failure e) :
    (e.code = some ("MODULE_NOT_FOUND") →
      (renderPng env st o).result = .error ⟨none, canvasUnavailableMsg⟩) ∧
    (¬ e.code = some ("MODULE_NOT_FOUND") → (renderPng env st o).result = .error e) ∧
    ("npm install canvas").data <:+: canvasUnavailableMsg.data ∧
    ("svg").data <:+: canvasUnavailableMsg.data := by
  refine ⟨?_, ?_, ?_, ?_⟩
  · intro hcode
    simp [renderPng, hw, hc, hl, hcode]
  · intro hcode
    simp [renderPng, hw, hc, hl, hcode]
  · exact ⟨("Canvas API not available for PNG generation in Node.js. Please install \"canvas\" or \"@napi-rs/canvas\" as a peer dependency (e.g., \x60").data,
      ("\x60), or use \x60format: \"svg\"\x60.").data, rfl⟩
  · exact ⟨("Canvas API not available for PNG generation in Node.js. Please install \"canvas\" or \"@napi-rs/canvas\" as a peer dependency (e.g., \x60npm install canvas\x60), or use \x60format: \"").data,
      ("\"\x60.").data, rfl⟩

/-- Witness for C7 at a concrete headless environment. -/
theorem renderPng_load_error_spec_witness :
    (renderPng ⟨false, .failure ⟨some ("MODULE_NOT_FOUND"), ("nf")⟩, true, ("u")⟩
        ⟨none⟩ ⟨10, 10, [], none, none, none, none⟩).result =
      .error ⟨none, canvasUnavailableMsg⟩ :=
  (renderPng_load_error_spec ⟨false, .failure ⟨some ("MODULE_NOT_FOUND"), ("nf")⟩, true, ("u")⟩
      ⟨none⟩ ⟨10, 10, [], none, none, none, none⟩ ⟨some ("MODULE_NOT_FOUND"), ("nf")⟩
      rfl rfl rfl).1 rfl

lemma renderPng_state_cached (env : Env) (st : ProcState) (o : PlaceholderOptions)
    (hst : st.nodeCanvas = some ()) : (renderPng env st o).state = st := by
  by_cases hg : env.getContextOk <;>
    by_cases hw : env.hasWindow <;>
    simp [renderPng, hst, hw, drawPng, hg]

/-- C8 (amended): a *successful* module load is attempted at most once and
cached: with the handle cached no call in a trace ever attempts the import
again and the state is preserved; a headless call finding the cache empty
whose load succeeds fills the cache.  (After a *failed* attempt, however,
the cache stays empty and the next headless call attempts the load again —
see the counterexample.) -/
theorem canvasLoad_cache_spec (o : PlaceholderOptions) :
    (∀ envs st, st.nodeCanvas = some () →
      runPngCalls o envs st = envs.map (fun _ => false)) ∧
    (∀ env st, env.hasWindow = false → st.nodeCanvas = none → env.load = .success →
      (renderPng env st o).state = ⟨some ()⟩) ∧
    (∀ env st, st.nodeCanvas = some () → (renderPng env st o).state = st) ∧
    (∀ env st e, env.hasWindow = false → st.nodeCanvas = none → env.load = .failure e →
      (renderPng env st o).state = st ∧ attemptsLoad env st = true) := by
  refine ⟨?_, ?_, ?_, ?_⟩
  · intro envs st hst
    induction envs generalizing st with
    | nil => rfl
    | cons e es ih =>
      simp only [runPngCalls, List.map_cons]
      rw [renderPng_state_cached e st o hst, ih st hst]
      simp [attemptsLoad, hst]
  · intro env st hw hc hl
    by_cases hg : env.getContextOk <;> simp [renderPng, hw, hc, hl, drawPng, hg]
  · intro env st hst
    exact renderPng_state_cached env st o hst
  · intro env st e hw hc hl
    constructor
    · by_cases hcode : e.code = some ("MODULE_NOT_FOUND") <;>
        simp [renderPng, hw, hc, hl, hcode]
    · simp [attemptsLoad, hw, hc]

/-- Witness for C8's amended statement: with the module handle cached,
neither of two subsequent calls attempts the load. -/
theorem canvasLoad_cache_spec_witness :
    runPngCalls ⟨10, 10, [], none, none, none, none⟩
        [⟨false, .success, true, ("u")⟩, ⟨true, .success, true, ("u")⟩] ⟨some ()⟩ =
      [false, false] :=
  (canvasLoad_cache_spec ⟨10, 10, [], none, none, none, none⟩).1
    [⟨false, .success, true, ("u")⟩, ⟨true, .success, true, ("u")⟩] ⟨some ()⟩ rfl

/-- C8 counterexample: when the first headless call's load *fails*
(`MODULE_NOT_FOUND`), `NodeCanvas` stays unset, so the second call attempts
the dynamic import again — the load is not attempted at most once per
process lifetime. -/
theorem canvasLoad_retry_counterexample :
    runPngCalls ⟨10, 10, [], none, none, none, none⟩
        [⟨false, .failure ⟨some ("MODULE_NOT_FOUND"), ("nf")⟩, true, ("u")⟩,
          ⟨false, .failure ⟨some ("MODULE_NOT_FOUND"), ("nf")⟩, true, ("u")⟩]
        ⟨none⟩ = [true, true] := rfl

/-- C9: the vector path has no failure conditions: whenever the format
resolves to svg, `generatePlaceholder` returns a value (never a rejection)
having entered only the svg renderer; and any rejection comes either from
the raster path or from the dispatcher's unsupported-format check, which
fires with no renderer entered. -/
theorem vector_path_total (env : Env) (st : ProcState) (o : PlaceholderOptions) :
    (jsOr o.format ("png") = "svg" →
      ∃ s, (generatePlaceholder env st o).result = .ok s ∧
        (generatePlaceholder env st o).rendererCalls = [.svgRenderer]) ∧
    (∀ e, (generatePlaceholder env st o).result = .error e →
      (jsOr o.format ("png") = "png" ∧
          (generatePlaceholder env st o).rendererCalls = [.pngRenderer]) ∨
        ((generatePlaceholder env st o).rendererCalls = [] ∧
          e = ⟨none, "Unsupported format: " ++ jsOr o.format ("png") ++
            ". Only \x27png\x27 and \x27svg\x27 are supported."⟩)) := by
  constructor
  · intro h
    refine ⟨"data:image/svg+xml;charset=utf-8," ++
        jsReplaceChar (jsReplaceChar (encodeURIComponent (renderSvg o)) '\x27' ("%27"))
          '\x22' ("%22"), ?_, ?_⟩ <;>
      simp only [generatePlaceholder, h, if_true]
  · intro e he
    by_cases h1 : jsOr o.format ("png") = "svg"
    · exact absurd he (by simp only [generatePlaceholder, h1, if_true]; simp)
    · by_cases h2 : jsOr o.format ("png") = "png"
      · refine Or.inl ⟨h2, ?_⟩
        simp [generatePlaceholder, h2]
      · refine Or.inr ⟨?_, ?_⟩
        · simp [generatePlaceholder, h1, h2]
        · rw [show (generatePlaceholder env st o).result =
              .error ⟨none, "Unsupported format: " ++ jsOr o.format ("png") ++
                ". Only \x27png\x27 and \x27svg\x27 are supported."⟩
              from by simp [generatePlaceholder, h1, h2]] at he
          exact ((Except.error.injEq _ _).mp he).symm

/-- Witness for C9 at a concrete svg request. -/
theorem vector_path_total_witness :
    ∃ s, (generatePlaceholder ⟨true, .success, true, ("u")⟩ ⟨none⟩
        ⟨50, 50, [97], some ("svg"), none, none, none⟩).result = .ok s ∧
      (generatePlaceholder ⟨true, .success, true, ("u")⟩ ⟨none⟩
        ⟨50, 50, [97], some ("svg"), none, none, none⟩).rendererCalls = [.svgRenderer] :=
  (vector_path_total ⟨true, .success, true, ("u")⟩ ⟨none⟩
    ⟨50, 50, [97], some ("svg"), none, none, none⟩).1 rfl

/-- C10: in both renderers an override field that is present but equal to
the empty string behaves exactly as if it were absent, because defaults are
resolved with `||` and `''` is falsy: the rendered output is identical. -/
theorem empty_override_spec (o : PlaceholderOptions) (env : Env) (st : ProcState) :
    renderSvg { o with text := some ("") } = renderSvg { o with text := none } ∧
    renderSvg { o with textColor := some ("") } = renderSvg { o with textColor := none } ∧
    renderSvg { o with backgroundColor := some ("") } =
      renderSvg { o with backgroundColor := none } ∧
    renderPng env st { o with text := some ("") } = renderPng env st { o with text := none } ∧
    renderPng env st { o with textColor := some ("") } =
      renderPng env st { o with textColor := none } ∧
    renderPng env st { o with backgroundColor := some ("") } =
      renderPng env st { o with backgroundColor := none } :=
  ⟨rfl, rfl, rfl, rfl, rfl, rfl⟩
